import Mathlib

/-!
Verification of the stencil templating engine (src/stencil.py) against its
natural-language specification.

The Python module is shallowly embedded: Python runtime values are modelled by
the inductive type Value, Python exceptions by PyError, and every fallible
operation returns Except PyError.  Recursions whose termination depends on
runtime data take an explicit Nat fuel argument (structural, so all
definitions compute by kernel reduction); the fuel models the finite
recursion depth available to the Python interpreter, and every top-level
entry point supplies fuel that is sufficient for its input.

Modelling notes, recorded once here:
- Dicts, objects and scope frames are string-keyed association lists;
  lookup takes the first match, exactly like a Python dict that is updated
  by assignment and read front-to-back.
- A zero-argument callable is modelled as the constructor vcallable r:
  calling it yields r.  (A pure zero-argument Python callable is observably
  a constant.)
- Reflective attribute access on builtin types (string methods, list
  methods, attributes of the Context object itself) is outside the value
  universe; attribute access succeeds only on vobj values.  No claim
  depends on those reflective corners.
-/

/-- Universe of runtime values manipulated by the template engine. -/
inductive Value where
  | vnull
  | vbool (b : Bool)
  | vint (n : Int)
  | vstr (s : String)
  | vlist (xs : List Value)
  | vdict (entries : List (String × Value))
  | vobj (attrs : List (String × Value))
  | vcallable (result : Value)

/-- Python exception classes that stencil.py can raise or catch. -/
inductive PyError where
  | syntaxError (msg : String)
  | keyError (key : String)
  | valueError (msg : String)
  | typeError (msg : String)
  | indexError (msg : String)
  | attributeError (msg : String)
  | assertionError (msg : String)
  | stopIteration
  | recursionError
deriving DecidableEq, Repr

/-- Whitespace characters stripped by Python str.strip and matched by the
regex class backslash-s (space, tab, newline, carriage return, vertical
tab, form feed). -/
def pyIsSpace (c : Char) : Bool :=
  c = ' ' || c = '\t' || c = '\n' || c = '\r' || c = '\x0b' || c = '\x0c'

/-- Python str.strip on a character list. -/
def stripChars (cs : List Char) : List Char :=
  ((cs.dropWhile pyIsSpace).reverse.dropWhile pyIsSpace).reverse

/-- Python str.strip. -/
def pyStrip (s : String) : String :=
  String.mk (stripChars s.data)

/-- Python str.split(sep) for a one-character separator: split at every
occurrence, keeping empty parts. -/
def splitCharList (sep : Char) : List Char → List (List Char)
  | [] => [[]]
  | c :: rest =>
    match splitCharList sep rest with
    | [] => [[]]
    | g :: gs => if c = sep then [] :: g :: gs else (c :: g) :: gs

/-- Python str.split(sep) for a one-character separator, on strings. -/
def pySplit (sep : Char) (s : String) : List String :=
  (splitCharList sep s.data).map String.mk

/-- Index of the first occurrence of pat as a contiguous subsequence. -/
def findSeq (pat : List Char) : List Char → Option Nat
  | [] => if pat.isPrefixOf ([] : List Char) then some 0 else none
  | c :: rest =>
    if pat.isPrefixOf (c :: rest) then some 0
    else (findSeq pat rest).map (· + 1)

/-- Python str.split(sep, 1) for a multi-character separator: split at the
first occurrence only; none when the separator does not occur (in which
case Python returns a one-element list). -/
def pySplitOnce (sep : String) (s : String) : Option (String × String) :=
  (findSeq sep.data s.data).map fun i =>
    (String.mk (s.data.take i), String.mk (s.data.drop (i + sep.data.length)))

/-- Value of a decimal digit. -/
def digitVal (c : Char) : Option Nat :=
  if c.isDigit then some (c.toNat - '0'.toNat) else none

/-- Decimal reading of a nonempty all-digit character list. -/
def digitsToNat (cs : List Char) : Option Nat :=
  if cs.isEmpty then none
  else cs.foldl (fun acc c => acc.bind fun n => (digitVal c).map fun d => 10 * n + d) (some 0)

/-- Python int(s): surrounding whitespace allowed, optional sign, then a
nonempty digit run; none models ValueError. -/
def pyInt (s : String) : Option Int :=
  match stripChars s.data with
  | '-' :: ds => (digitsToNat ds).map fun n => -(n : Int)
  | '+' :: ds => (digitsToNat ds).map fun n => (n : Int)
  | ds => (digitsToNat ds).map fun n => (n : Int)

/-- Python sequence indexing with negative indices; none models IndexError. -/
def pyIndex (xs : List Value) (i : Int) : Option Value :=
  if 0 ≤ i then xs.get? i.toNat
  else if 0 ≤ i + xs.length then xs.get? (i + xs.length).toNat
  else none

/-- Mapping access obj[step] (stencil.py line 27).  Fails, like the caught
TypeError/KeyError, on values that are not string-keyed mappings. -/
def dictLookup : Value → String → Option Value
  | .vdict entries, k => (entries.find? fun p => p.1 = k).map (·.2)
  | _, _ => none

/-- Attribute access getattr(obj, step) (stencil.py line 30).  Succeeds only
on object values carrying attributes. -/
def attrLookup : Value → String → Option Value
  | .vobj attrs, k => (attrs.find? fun p => p.1 = k).map (·.2)
  | _, _ => none

/-- Integer index access obj[int(step)] (stencil.py line 33): int() may fail
with ValueError, indexing with IndexError; both map to none. -/
def indexLookup (v : Value) (k : String) : Option Value :=
  match pyInt k with
  | none => none
  | some i =>
    match v with
    | .vlist xs => pyIndex xs i
    | .vstr s => (pyIndex (s.data.map fun c => .vstr (String.mk [c])) i)
    | _ => none

/-- One step of digattr (stencil.py lines 26-35): dict lookup, then
attribute lookup, then integer index lookup, the nested try/except blocks
becoming nested matches. -/
def digStep (obj : Value) (step : String) : Option Value :=
  match dictLookup obj step with
  | some v => some v
  | none =>
    match attrLookup obj step with
    | some v => some v
    | none => indexLookup obj step

/-- Lines 36-37 of stencil.py: if callable(obj) then obj = obj(). -/
def callIfCallable : Value → Value
  | .vcallable r => r
  | v => v

/-- The loop of digattr (stencil.py lines 25-37): walk the steps, returning
the default as soon as one step fails all three access modes. -/
def digattrLoop (default : Value) : Value → List String → Value
  | obj, [] => obj
  | obj, step :: rest =>
    match digStep obj step with
    | some v => digattrLoop default (callIfCallable v) rest
    | none => default

/-- digattr (stencil.py lines 23-38): template-style dotted lookup. -/
def digattr (obj : Value) (attr : String) (default : Value) : Value :=
  digattrLoop default obj (pySplit '.' attr)

/-! Spec-side formulation of dotted resolution, written from the words of
spec sections 4.4 and 9: an explicit ordered strategy list (mapping lookup,
member lookup, index lookup), each strategy returning success or failure,
short-circuiting on the first success; a step on which every strategy fails
makes the whole expression resolve to the configured default, with no
partial result and no error.  Used only to compare with digattr above. -/

/-- First successful result of a list of attempts (spec section 9:
short-circuiting on first success). -/
def firstSuccess : List (Option Value) → Option Value
  | [] => none
  | o :: os =>
    match o with
    | some v => some v
    | none => firstSuccess os

/-- The ordered strategy list of spec section 9. -/
def specStrategies : List (Value → String → Option Value) :=
  [dictLookup, attrLookup, indexLookup]

/-- One spec-side resolution step: try the strategies in order. -/
def specStep (v : Value) (step : String) : Option Value :=
  firstSuccess (specStrategies.map fun f => f v step)

/-- Spec-side stepwise path resolution: none as soon as a step fails. -/
def specResolvePath : Value → List String → Option Value
  | v, [] => some v
  | v, step :: rest =>
    match specStep v step with
    | none => none
    | some v' => specResolvePath (callIfCallable v') rest

/-- Spec-side dotted resolution: split on dots, resolve stepwise, and
return the configured default for the whole expression when any step
fails. -/
def specDigattr (v : Value) (attr : String) (default : Value) : Value :=
  (specResolvePath v (pySplit '.' attr)).getD default

theorem digStep_eq_specStep (v : Value) (step : String) :
    digStep v step = specStep v step := by
  unfold digStep specStep specStrategies firstSuccess
  cases hd : dictLookup v step <;> cases ha : attrLookup v step <;>
    cases hi : indexLookup v step <;>
      simp [List.map, firstSuccess, hd, ha, hi]

theorem digattrLoop_eq_specResolvePath (default : Value) :
    ∀ (steps : List String) (v : Value),
      digattrLoop default v steps = (specResolvePath v steps).getD default := by
  intro steps
  induction steps with
  | nil => intro v; rfl
  | cons step rest ih =>
    intro v
    unfold digattrLoop specResolvePath
    rw [digStep_eq_specStep]
    cases h : specStep v step with
    | none => rfl
    | some v' => exact ih (callIfCallable v')

/-- Claim C1: for every root value and dotted path, resolution proceeds step
by step, attempting in order mapping access, attribute access, then integer
index access; the first mode that succeeds wins, and if all three fail for
any step the configured default is returned for the whole expression, with
no partial result and no exception raised to the caller.  Formalised as a
refinement: the source translation digattr agrees with specDigattr, which
is written from the words of the spec (ordered strategy list with
short-circuit, default on any step failure); totality of both functions
(result type Value, not Except) is the absence of exceptions. -/
theorem digattr_matches_spec (obj : Value) (attr : String) (default : Value) :
    digattr obj attr default = specDigattr obj attr default := by
  unfold digattr specDigattr
  exact digattrLoop_eq_specResolvePath default (pySplit '.' attr) obj

/-- Claim C8: during dotted-path resolution, after each successful step, a
value that is invocable with zero arguments is invoked and the invocation
result is used as the value for the next step, while a non-invocable value
is passed through unchanged (the two arms of the match in the conclusion). -/
theorem digattr_invokes_callable (obj v : Value) (step : String)
    (rest : List String) (default : Value)
    (h : digStep obj step = some v) :
    digattrLoop default obj (step :: rest) =
      digattrLoop default (match v with | .vcallable r => r | w => w) rest := by
  cases v <;> simp [digattrLoop, h, callIfCallable]

/-- Witness for digattr_invokes_callable: a dict storing a zero-argument
accessor for a nested dict; the accessor is invoked and its result feeds
the next step, yielding 7. -/
theorem digattr_invokes_callable_witness :
    digattrLoop .vnull
      (.vdict [("a", .vcallable (.vdict [("b", .vint 7)]))]) ["a", "b"] = .vint 7 :=
  (digattr_invokes_callable
      (.vdict [("a", .vcallable (.vdict [("b", .vint 7)]))])
      (.vcallable (.vdict [("b", .vint 7)])) "a" ["b"] .vnull rfl).trans rfl

/-! Tokenizer (stencil.py lines 12-20 and 41-55).

The combined pattern tag_re alternates three delimiter forms, each of shape
OPEN backslash-s* (.+?) backslash-s* CLOSE with DOTALL.  For such a
pattern, a match starting at some position exists exactly when the two-char
CLOSE occurs at least one character after the end of OPEN, and the match
ends at the first such occurrence of CLOSE; the group, once stripped, is
the stripped text strictly between OPEN and that CLOSE (the two greedy
whitespace runs eaten by the pattern are whitespace, so stripping absorbs
them).  finditer scans left to right, trying the three alternatives in
pattern order (block, var, comment) at each position, and resumes after
each match.  The scanner below implements exactly that. -/

/-- Token kinds (stencil.py lines 12-15). -/
inductive TokType where
  | text
  | var
  | block
  | comment
deriving DecidableEq, Repr

/-- Token namedtuple (stencil.py line 20). -/
structure Token where
  type : TokType
  content : String
deriving DecidableEq, Repr

/-- A scanner item: either a run of literal text (in source order) or a
delimiter match carrying its full matched span raw and the text between
the delimiters, before stripping. -/
inductive Chunk where
  | text (cs : List Char)
  | delim (ty : TokType) (raw : List Char) (content : List Char)
deriving DecidableEq, Repr

/-- The span of source characters a chunk arose from: the content of a text
run, or the full matched span (delimiters included) of a delimiter match. -/
def Chunk.sourceText : Chunk → List Char
  | .text cs => cs
  | .delim _ raw _ => raw

/-- The Token yielded for a chunk (stencil.py lines 48 and 52): text is
passed through verbatim, delimiter content is stripped. -/
def Chunk.toToken : Chunk → Token
  | .text cs => ⟨.text, String.mk cs⟩
  | .delim ty _ content => ⟨ty, String.mk (stripChars content)⟩

/-- Index of the first occurrence of the two-character sequence c1 c2. -/
def findPair (c1 c2 : Char) : List Char → Option Nat
  | a :: b :: rest =>
    if a = c1 ∧ b = c2 then some 0
    else (findPair c1 c2 (b :: rest)).map (· + 1)
  | _ => none

/-- Try one delimiter alternative at the current position: OPEN is the two
characters left-brace o, CLOSE is c1 c2, and the match requires at least
one character of content, so CLOSE is searched from one past OPEN.  On
success returns the chunk and the rest of the input after the match. -/
def tryDelimCore (ty : TokType) (c1 c2 b a : Char) (rest : List Char) :
    Option (Chunk × List Char) :=
  match findPair c1 c2 (rest.drop 1) with
  | none => none
  | some j =>
    some (.delim ty (b :: a :: rest.take (j + 3)) (rest.take (j + 1)), rest.drop (j + 3))

def tryDelim (ty : TokType) (o c1 c2 : Char) : List Char → Option (Chunk × List Char)
  | b :: a :: rest =>
    if b = '\x7b' ∧ a = o then tryDelimCore ty c1 c2 b a rest else none
  | _ => none

/-- Try the three alternatives of tag_re in pattern order at the current
position (stencil.py line 17): block, then var, then comment. -/
def matchAt (s : List Char) : Option (Chunk × List Char) :=
  match tryDelim .block '%' '%' '\x7d' s with
  | some r => some r
  | none =>
    match tryDelim .var '\x7b' '\x7d' '\x7d' s with
    | some r => some r
    | none => tryDelim .comment '#' '#' '\x7d' s

/-- Emit the pending run of literal text, if any (the text accumulator is
kept reversed); stencil.py lines 47-48 skip empty runs. -/
def flushText (acc : List Char) : List Chunk :=
  if acc.isEmpty then [] else [.text acc.reverse]

/-- The finditer scan: at each position try the pattern; on a match, emit
the pending text and the delimiter chunk and resume after the match; else
advance one character.  The fuel is at least the number of characters left
plus one whenever scanAux is reached, so the fuel-exhausted arm (which
still flushes everything as text) is never taken from scan below. -/
def scanAux : Nat → List Char → List Char → List Chunk
  | 0, acc, s =>
    flushText acc ++ (if s.isEmpty then [] else [.text s])
  | fuel + 1, acc, s =>
    match matchAt s with
    | some cr => flushText acc ++ cr.1 :: scanAux fuel [] cr.2
    | none =>
      match s with
      | [] => flushText acc
      | c :: rest => scanAux fuel (c :: acc) rest

/-- Scan a whole character list. -/
def scan (cs : List Char) : List Chunk :=
  scanAux (cs.length + 1) [] cs

/-- tokenise (stencil.py lines 41-55): the token stream of a source string,
in source order. -/
def tokenise (src : String) : List Token :=
  (scan src.data).map Chunk.toToken

/-- Concatenation, in order, of the source spans of all chunks: text-token
content plus the original delimiter text of every delimiter match. -/
def rawConcat (l : List Chunk) : List Char :=
  (l.map Chunk.sourceText).flatten

theorem rawConcat_append (l1 l2 : List Chunk) :
    rawConcat (l1 ++ l2) = rawConcat l1 ++ rawConcat l2 := by
  simp [rawConcat]

theorem rawConcat_cons (ch : Chunk) (l : List Chunk) :
    rawConcat (ch :: l) = ch.sourceText ++ rawConcat l := by
  simp [rawConcat]

theorem rawConcat_flushText (acc : List Char) :
    rawConcat (flushText acc) = acc.reverse := by
  cases acc <;> simp [flushText, rawConcat, Chunk.sourceText]

theorem rawConcat_single_text (cs : List Char) :
    rawConcat [Chunk.text cs] = cs := by
  simp [rawConcat, Chunk.sourceText]

theorem tryDelim_split (ty : TokType) (o c1 c2 : Char) (s : List Char)
    (ch : Chunk) (rest : List Char) (h : tryDelim ty o c1 c2 s = some (ch, rest)) :
    ch.sourceText ++ rest = s := by
  match s with
  | [] => simp [tryDelim] at h
  | [_] => simp [tryDelim] at h
  | b :: a :: r =>
    simp only [tryDelim] at h
    by_cases hba : b = '\x7b' ∧ a = o
    · rw [if_pos hba] at h
      cases hf : findPair c1 c2 (r.drop 1) with
      | none => rw [tryDelimCore, hf] at h; exact absurd h (by simp)
      | some j =>
        rw [tryDelimCore, hf] at h
        injection h with h2
        injection h2 with hc hr
        subst hc hr
        simp [Chunk.sourceText]
    · rw [if_neg hba] at h
      exact absurd h (by simp)

theorem matchAt_split (s : List Char) (ch : Chunk) (rest : List Char)
    (h : matchAt s = some (ch, rest)) : ch.sourceText ++ rest = s := by
  unfold matchAt at h
  cases hb : tryDelim .block '%' '%' '\x7d' s with
  | some r => rw [hb] at h; cases h; exact tryDelim_split _ _ _ _ _ _ _ hb
  | none =>
    rw [hb] at h
    cases hv : tryDelim .var '\x7b' '\x7d' '\x7d' s with
    | some r => rw [hv] at h; cases h; exact tryDelim_split _ _ _ _ _ _ _ hv
    | none =>
      rw [hv] at h
      exact tryDelim_split _ _ _ _ _ _ _ h

theorem scanAux_raw (fuel : Nat) :
    ∀ (acc s : List Char), rawConcat (scanAux fuel acc s) = acc.reverse ++ s := by
  induction fuel with
  | zero =>
    intro acc s
    cases s <;>
      simp [scanAux, rawConcat_append, rawConcat_flushText, rawConcat_single_text]
  | succ fuel ih =>
    intro acc s
    cases hm : matchAt s with
    | some pr =>
      have hsplit := matchAt_split s pr.1 pr.2 (by rw [hm])
      rw [show scanAux (fuel + 1) acc s
            = flushText acc ++ pr.1 :: scanAux fuel [] pr.2 by
          simp [scanAux, hm]]
      rw [rawConcat_append, rawConcat_cons, rawConcat_flushText, ih [] pr.2]
      simp [hsplit]
    | none =>
      cases s with
      | nil =>
        rw [show scanAux (fuel + 1) acc [] = flushText acc by simp [scanAux, hm]]
        simp [rawConcat_flushText]
      | cons c rest =>
        rw [show scanAux (fuel + 1) acc (c :: rest) = scanAux fuel (c :: acc) rest by
          simp [scanAux, hm]]
        rw [ih (c :: acc) rest]
        simp

/-- Claim C4: the token sequence covers the entire input with no gaps or
overlaps: re-concatenating, in order, the content of every text chunk
(which becomes the content of the corresponding Text token, verbatim)
together with the original matched span of every delimiter chunk
reconstructs the source exactly.  tokenise is the chunk list mapped
through Chunk.toToken, so this is the losslessness of the tokenizer. -/
theorem tokenise_lossless (src : String) : rawConcat (scan src.data) = src.data := by
  unfold scan
  rw [scanAux_raw]
  simp


/-- Fail-open check: a matched delimiter followed by an unterminated
opener leaves the opener in the trailing Text token. -/
theorem failOpen_after_matched_delimiter :
    tokenise "\x7b\x7ba\x7d\x7d \x7b\x7bb" =
      [⟨TokType.var, "a"⟩, ⟨TokType.text, " \x7b\x7bb"⟩] := rfl

/-- Fail-open check: closing markers appearing only before the opener are
literal text along with the unterminated opener. -/
theorem failOpen_closer_before_opener :
    tokenise "\x7d\x7d \x7b\x7bx" = [⟨TokType.text, "\x7d\x7d \x7b\x7bx"⟩] := rfl

/-- Fail-open check: a closing marker of a different kind after the opener
does not terminate it; the whole source stays literal text. -/
theorem failOpen_other_kind_closer :
    tokenise "\x7b\x7b x #\x7d" = [⟨TokType.text, "\x7b\x7b x #\x7d"⟩] := rfl

/-! Context (stencil.py lines 74-109): the per-render scope stack, filter
mapping and output sink.  A frame is an association list; Context.push
inserts a new frame at the front (innermost first), __setitem__ writes into
the front frame, __getitem__ walks the frames front to back.  Writing into
a frame is modelled by consing the new binding, which a front-to-back
lookup cannot distinguish from in-place dict assignment.  Python raises
IndexError when setting or popping with an empty stack; that state is
unreachable from the public entry points (construction always pushes one
frame), and the model makes those operations act as the identity there. -/

structure Context where
  stack : List (List (String × Value))
  filters : List (String × (Value → Value))
  output : String

/-- Context.push with no bindings (stencil.py lines 80-81). -/
def Context.push (ctx : Context) : Context :=
  { ctx with stack := [] :: ctx.stack }

/-- Context.pop (stencil.py lines 83-84). -/
def Context.pop (ctx : Context) : Context :=
  { ctx with stack := ctx.stack.tail }

/-- Context.__setitem__ (stencil.py lines 92-93): bind in the front frame. -/
def Context.setItem (ctx : Context) (k : String) (v : Value) : Context :=
  match ctx.stack with
  | [] => ctx
  | f :: rest => { ctx with stack := ((k, v) :: f) :: rest }

/-- The Context seen as the root mapping for digattr (stencil.py line 101
passes self as the root object): Context.__getitem__ walks the frames
innermost first and raises KeyError when no frame binds the name, which is
exactly first-match lookup in the concatenated frames.  The attribute and
index fallback arms of digattr fail on this value just as they do on the
Python Context for template-level names. -/
def Context.rootValue (ctx : Context) : Value :=
  .vdict ctx.stack.flatten

/-- Filter lookup self.filters[filt] (stencil.py line 104). -/
def lookupFilter (filters : List (String × (Value → Value))) (name : String) :
    Option (Value → Value) :=
  (filters.find? fun p => p.1 = name).map (·.2)

/-- The filter loop of Context.resolve (stencil.py lines 102-108): apply
each named filter in order, left to right; an unknown name raises
SyntaxError with both the filter name and the full expression. -/
def applyFilters (filters : List (String × (Value → Value))) (expr : String) :
    List String → Value → Except PyError Value
  | [], v => .ok v
  | f :: fs, v =>
    match lookupFilter filters f with
    | none => .error (.syntaxError ("Unknown filter function " ++ f ++ " : " ++ expr))
    | some fn => applyFilters filters expr fs (fn v)

/-- Context.resolve (stencil.py lines 95-109): split the expression on the
pipe character, resolve the head by dotted lookup rooted at the Context
(default None, so a miss is absorbed), then run the filter pipeline.  The
empty-parts arm is unreachable: pySplit always returns a nonempty list. -/
def Context.resolve (ctx : Context) (expr : String) : Except PyError Value :=
  match pySplit '|' expr with
  | [] => .error (.indexError "pop from empty list")
  | e :: filts => applyFilters ctx.filters expr filts (digattr ctx.rootValue e .vnull)

/-- Claim C5: an expression of the form expr-pipe-filterA-pipe-filterB first
resolves the head expression via the dotted-path procedure (rooted at the
Context, default None), then applies filterA to that result, then filterB
to the result of filterA, strictly left to right: the conclusion nests F2
outside F1. -/
theorem resolve_filter_pipeline (ctx : Context) (expr e f1 f2 : String)
    (F1 F2 : Value → Value)
    (hsplit : pySplit '|' expr = [e, f1, f2])
    (h1 : lookupFilter ctx.filters f1 = some F1)
    (h2 : lookupFilter ctx.filters f2 = some F2) :
    ctx.resolve expr = .ok (F2 (F1 (digattr ctx.rootValue e .vnull))) := by
  unfold Context.resolve
  rw [hsplit]
  unfold applyFilters
  rw [h1]
  unfold applyFilters
  rw [h2]
  rfl

/-- String-reversing filter used by the pipeline witness. -/
def revFilter : Value → Value := fun v =>
  match v with
  | .vstr s => .vstr (String.mk s.data.reverse)
  | w => w

/-- Exclamation-appending filter used by the pipeline witness; together with
revFilter it forms a non-commuting pair. -/
def exclFilter : Value → Value := fun v =>
  match v with
  | .vstr s => .vstr (s ++ "!")
  | w => w

/-- Witness for resolve_filter_pipeline: with x bound to ab, the pipeline
x-pipe-rev-pipe-excl reverses first and appends second, so the output is
ba! rather than the !ba an inverted order would give. -/
theorem resolve_filter_pipeline_witness :
    Context.resolve
      ⟨[[("x", .vstr "ab")]], [("rev", revFilter), ("excl", exclFilter)], ""⟩
      "x|rev|excl" = .ok (.vstr "ba!") :=
  resolve_filter_pipeline
    ⟨[[("x", .vstr "ab")]], [("rev", revFilter), ("excl", exclFilter)], ""⟩
    "x|rev|excl" "x" "rev" "excl" revFilter exclFilter (by decide) rfl rfl

/-- Claim C9: a variable expression whose filter chain names a filter absent
from the filter mapping (here, the first absent one, every filter before it
being present) makes resolution fail fast with a SyntaxError whose message
carries both the unknown filter name and the full expression.  The dotted
lookup of the head, by contrast, is total (digattr returns a Value, never
an error), so only the filter chain can raise here. -/
theorem unknown_filter_syntax_error (ctx : Context) (expr e f : String)
    (pre post : List String)
    (hsplit : pySplit '|' expr = e :: (pre ++ f :: post))
    (hpre : ∀ g ∈ pre, (lookupFilter ctx.filters g).isSome = true)
    (hf : lookupFilter ctx.filters f = none) :
    ctx.resolve expr =
      .error (.syntaxError ("Unknown filter function " ++ f ++ " : " ++ expr)) := by
  have main : ∀ (pre : List String) (v : Value),
      (∀ g ∈ pre, (lookupFilter ctx.filters g).isSome = true) →
      applyFilters ctx.filters expr (pre ++ f :: post) v =
        .error (.syntaxError ("Unknown filter function " ++ f ++ " : " ++ expr)) := by
    intro pre
    induction pre with
    | nil =>
      intro v _
      rw [List.nil_append]
      unfold applyFilters
      rw [hf]
    | cons g pre ih =>
      intro v hp
      obtain ⟨G, hG⟩ := Option.isSome_iff_exists.mp (hp g (by simp))
      rw [List.cons_append]
      unfold applyFilters
      rw [hG]
      exact ih (G v) fun x hx => hp x (by simp [hx])
  unfold Context.resolve
  rw [hsplit]
  exact main pre (digattr ctx.rootValue e .vnull) hpre

/-- Witness for unknown_filter_syntax_error: the second filter name bogus is
absent while the first filter up is present. -/
theorem unknown_filter_syntax_error_witness :
    Context.resolve ⟨[[("a", .vint 1)]], [("up", fun v => v)], ""⟩ "a|up|bogus" =
      .error (.syntaxError "Unknown filter function bogus : a|up|bogus") :=
  unknown_filter_syntax_error _ "a|up|bogus" "a" "bogus" ["up"] [] (by decide)
    (by intro g hg; simp at hg; subst hg; rfl) rfl

/-! Parser (stencil.py lines 112-131, 176-186, 193-210, 223-279).

Template.__init__ eagerly drains the parse generator (line 117), so every
parse error is a compile-time error.  Template.parse is a generator over a
single shared token stream; a compound tag pulls more nodes from the same
stream through Nodelist, which calls next(parser.parse()) until it sees its
end marker.  parseNextF below is "produce the next node from the stream";
it returns the node together with the remaining tokens.  Crucially, under
Python 2 (this module uses the unicode builtin and __metaclass__, so it is
Python 2 code) a StopIteration raised by an inner next() on the exhausted
stream escapes through the tag parse into the Template.parse generator
frame, where the generator protocol swallows it and simply ends the
generator: list(self.parse()) then returns the nodes collected so far with
no error.  parseAllF models exactly that by turning a stopIteration result
into a normal end of the node list. -/

/-- A word character of the nodename regex (stencil.py line 18): the
pattern is backslash-w+, ASCII letters, digits and underscore. -/
def isWordChar (c : Char) : Bool :=
  c.isAlphanum || c = '_'

/-- nodename_re.match (stencil.py line 126): the leading run of word
characters and the remainder of the content; none when the content does
not start with a word character (stencil.py line 128 then raises
SyntaxError). -/
def wordSplit (s : String) : Option (String × String) :=
  match s.data.takeWhile isWordChar with
  | [] => none
  | w => some (String.mk w, String.mk (s.data.dropWhile isWordChar))

/-- The tag registry BlockNode.__tags__ as populated by BlockMeta at class
creation time (stencil.py lines 164-174 and the six tag classes). -/
inductive Tag where
  | forT
  | endforT
  | ifT
  | endifT
  | includeT
  | loadT
deriving DecidableEq, Repr

/-- Registry lookup BlockNode.__tags__[name]. -/
def lookupTag (name : String) : Option Tag :=
  if name = "for" then some .forT
  else if name = "endfor" then some .endforT
  else if name = "if" then some .ifT
  else if name = "endif" then some .endifT
  else if name = "include" then some .includeT
  else if name = "load" then some .loadT
  else none

/-- Compiled nodes (stencil.py classes TextTag, VarTag, ForTag, IfTag,
EndforTag, EndifTag, LoadTag).  IncludeTag never parses in this model
because no loader is bound (its parse asserts a loader, stencil.py line
267), so it has no constructor here. -/
inductive Node where
  | text (content : String)
  | var (expr : String)
  | forTag (argname : String) (iterable : String) (nodelist : List Node)
  | ifTag (condition : String) (nodelist : List Node)
  | endTag (tagname : String)
  | loadTag (content : String)

/-- The name class attribute a parsed node carries (stencil.py lines 143,
199, 224, 228, 255, 259, 279); None for Text and Var nodes.  Nodelist
compares it against the expected end marker. -/
def Node.nodeName : Node → Option String
  | .text _ => none
  | .var _ => none
  | .forTag _ _ _ => some "for"
  | .ifTag _ _ => some "if"
  | .endTag n => some n
  | .loadTag _ => some "load"

/-- Nodelist collection (stencil.py lines 181-186), parameterised by the
function that produces the next node from the shared stream: keep pulling
nodes until one whose name equals the end marker appears (that marker is
discarded); an exhausted stream surfaces the stopIteration of the inner
parseOne.  The fuel only bounds the number of pulls; the caller supplies
more fuel than there are tokens. -/
def collectList (parseOne : List Token → Except PyError (Node × List Token)) :
    Nat → String → List Token → Except PyError (List Node × List Token)
  | 0, _, _ => .error .recursionError
  | fuel + 1, endName, toks =>
    match parseOne toks with
    | .error e => .error e
    | .ok p =>
      if p.1.nodeName = some endName then .ok ([], p.2)
      else
        match collectList parseOne fuel endName p.2 with
        | .error e => .error e
        | .ok q => .ok (p.1 :: q.1, q.2)

/-- Produce the next node of Template.parse (stencil.py lines 119-131) from
the remaining token stream: text and var tokens yield nodes directly,
comments are skipped, and a block token dispatches on its leading word
through the tag registry; for and if pull their bodies from the same
stream via collectList, endfor/endif yield terminal marker nodes, include
fails its loader assertion (no loader is bound in this model), and load
stores its argument.  An exhausted stream is stopIteration. -/
def parseNextF : Nat → List Token → Except PyError (Node × List Token)
  | 0, _ => .error .recursionError
  | fuel + 1, toks =>
    match toks with
    | [] => .error .stopIteration
    | t :: rest =>
      match t.type with
      | .text => .ok (.text t.content, rest)
      | .var => .ok (.var t.content, rest)
      | .comment => parseNextF fuel rest
      | .block =>
        match wordSplit t.content with
        | none => .error (.syntaxError t.content)
        | some nt =>
          match lookupTag nt.1 with
          | none => .error (.keyError nt.1)
          | some tag =>
            match tag with
            | .forT =>
              match pySplitOnce " in " (pyStrip nt.2) with
              | none => .error (.valueError "need more than 1 value to unpack")
              | some ab =>
                match collectList (fun ts => parseNextF fuel ts) fuel "endfor" rest with
                | .error e => .error e
                | .ok p => .ok (.forTag (pyStrip ab.1) (pyStrip ab.2) p.1, p.2)
            | .ifT =>
              match collectList (fun ts => parseNextF fuel ts) fuel "endif" rest with
              | .error e => .error e
              | .ok p => .ok (.ifTag (pyStrip nt.2) p.1, p.2)
            | .endforT => .ok (.endTag "endfor", rest)
            | .endifT => .ok (.endTag "endif", rest)
            | .includeT => .error (.assertionError "include requires a bound Loader")
            | .loadT => .ok (.loadTag (pyStrip nt.2), rest)

/-- list(self.parse()) as run by Template.__init__ (stencil.py line 117):
collect produced nodes until the generator ends.  The generator ends both
on normal exhaustion of the token loop and when an inner next() raises
StopIteration that escapes into the generator frame (Python 2 semantics),
so a stopIteration result is a silent end of the node list, not an
error. -/
def parseAllF : Nat → List Token → Except PyError (List Node)
  | 0, _ => .error .recursionError
  | fuel + 1, toks =>
    match parseNextF fuel toks with
    | .error .stopIteration => .ok []
    | .error e => .error e
    | .ok p =>
      match parseAllF fuel p.2 with
      | .error e => .error e
      | .ok ns => .ok (p.1 :: ns)

/-- Template compilation (stencil.py lines 113-117): tokenise then parse
everything.  The fuel bound exceeds what any run can consume: every
parseNextF call either consumes a token or dispatches once per nesting
level, and both are bounded by the token count. -/
def compileTemplate (src : String) : Except PyError (List Node) :=
  parseAllF ((tokenise src).length + 2) (tokenise src)

/-- Counterexample for claim C2: compiling a template whose only block
token names the unregistered tag bogus fails with KeyError bogus, which is
a lookup error, not the syntax-class error the claim requires (the
SyntaxError arm of parse is reached only when the block content has no
leading identifier). -/
theorem compile_unknown_tag_keyerror :
    compileTemplate "\x7b% bogus %\x7d" = .error (.keyError "bogus") := rfl

/-- Amended claim C2: for every block token whose leading identifier names
a tag absent from the registry, producing the next node fails with
KeyError naming the unknown tag; Template.__init__ drains the parse
generator, so this surfaces at compile time and rendering is never
reached. -/
theorem unknown_tag_fails_with_keyerror (fuel : Nat)
    (content name tailStr : String) (toks : List Token)
    (h1 : wordSplit content = some (name, tailStr))
    (h2 : lookupTag name = none) :
    parseNextF (fuel + 1) (⟨TokType.block, content⟩ :: toks) =
      .error (.keyError name) := by
  simp [parseNextF, h1, h2]

/-- Witness for unknown_tag_fails_with_keyerror at the block token bogus. -/
theorem unknown_tag_fails_with_keyerror_witness :
    parseNextF 1 [⟨TokType.block, "bogus"⟩] = .error (.keyError "bogus") :=
  unknown_tag_fails_with_keyerror 0 "bogus" "bogus" "" [] (by decide) (by decide)

/-- Claim C3 (refuting evaluation): a template whose for tag is never
terminated compiles without any error to a silently truncated node list.
The inner next() hits the exhausted stream, its StopIteration escapes into
the parse generator and ends it (Python 2 semantics modelled by the
stopIteration arm of parseAllF), so Template.__init__ receives [text A]
and raises nothing, where the spec requires a distinct catchable
unterminated-block error. -/
theorem unterminated_for_truncates_silently :
    compileTemplate "A\x7b% for x in xs %\x7dB" = .ok [Node.text "A"] := rfl

/-- Claim C10: a for block token splits its argument text at the first
occurrence of the separator space-in-space; the stripped part before it
becomes the loop variable and the stripped part after it the iterable
expression, and when the separator is absent compilation fails with the
ValueError of the failed tuple unpacking and no For node is produced. -/
theorem forTag_parse_split (fuel : Nat) (content tailStr : String)
    (toks : List Token)
    (h : wordSplit content = some ("for", tailStr)) :
    (pySplitOnce " in " (pyStrip tailStr) = none →
      parseNextF (fuel + 1) (⟨TokType.block, content⟩ :: toks) =
        .error (.valueError "need more than 1 value to unpack")) ∧
    (∀ a b : String, pySplitOnce " in " (pyStrip tailStr) = some (a, b) →
      parseNextF (fuel + 1) (⟨TokType.block, content⟩ :: toks) =
        match collectList (fun ts => parseNextF fuel ts) fuel "endfor" toks with
        | .error e => .error e
        | .ok p => .ok (.forTag (pyStrip a) (pyStrip b) p.1, p.2)) := by
  have hl : lookupTag "for" = some Tag.forT := rfl
  constructor
  · intro hs
    simp [parseNextF, h, hl, hs]
  · intro a b hs
    simp [parseNextF, h, hl, hs]

/-- Witness for forTag_parse_split: the tag content for x in ys splits into
loop variable x and iterable ys, and with an immediate endfor token the
parser returns a For node with an empty body. -/
theorem forTag_parse_split_witness :
    parseNextF 3 [⟨TokType.block, "for x in ys"⟩, ⟨TokType.block, "endfor"⟩] =
      .ok (Node.forTag "x" "ys" [], []) :=
  ((forTag_parse_split 2 "for x in ys" " x in ys" [⟨TokType.block, "endfor"⟩]
    (by decide)).2 "x" "ys" (by decide)).trans rfl

/-! Renderer (stencil.py lines 133-139, 152-161, 188-190, 212-220,
239-251, 281-283).  Rendering threads the Context (whose output field is
the StringIO sink): a node render returns the possibly-updated context and
the string it returns to its caller, and sequence rendering writes that
string to the sink, as output.write does at lines 138 and 190. -/

/-- Python truthiness bool(v) over the value universe. -/
def truthy : Value → Bool
  | .vnull => false
  | .vbool b => b
  | .vint n => if n = 0 then false else true
  | .vstr s => !s.data.isEmpty
  | .vlist xs => !xs.isEmpty
  | .vdict d => !d.isEmpty
  | .vobj _ => true
  | .vcallable _ => true

mutual
/-- Python repr of a value, used inside container stringification; the
representation of objects and callables is abstracted to a fixed tag (their
Python repr is address-dependent and no template in the claims prints
them). -/
def pyRepr : Value → String
  | .vnull => "None"
  | .vbool b => if b then "True" else "False"
  | .vint n => toString n
  | .vstr s => "\x27" ++ s ++ "\x27"
  | .vlist xs => "[" ++ pyReprJoin xs ++ "]"
  | .vdict entries => "\x7b" ++ pyReprEntries entries ++ "\x7d"
  | .vobj _ => "<object>"
  | .vcallable _ => "<callable>"

def pyReprJoin : List Value → String
  | [] => ""
  | [v] => pyRepr v
  | v :: rest => pyRepr v ++ ", " ++ pyReprJoin rest

def pyReprEntries : List (String × Value) → String
  | [] => ""
  | [p] => "\x27" ++ p.1 ++ "\x27: " ++ pyRepr p.2
  | p :: rest => "\x27" ++ p.1 ++ "\x27: " ++ pyRepr p.2 ++ ", " ++ pyReprEntries rest
end

/-- unicode(v) as used by VarTag.render (stencil.py line 161). -/
def pyStr : Value → String
  | .vnull => "None"
  | .vbool b => if b then "True" else "False"
  | .vint n => toString n
  | .vstr s => s
  | v => pyRepr v

/-- The list of elements enumerate(iterable) walks (stencil.py line 215):
lists yield their elements, strings their characters, dicts their keys;
anything else raises TypeError, modelled by none. -/
def toIterable : Value → Option (List Value)
  | .vlist xs => some xs
  | .vstr s => some (s.data.map fun c => .vstr (String.mk [c]))
  | .vdict d => some (d.map fun p => .vstr p.1)
  | _ => none

/-- IfTag.test_condition (stencil.py lines 244-251): a leading word not
inverts the truthiness of the rest of the condition; with no inversion the
whole condition is resolved.  A condition consisting of the bare word not
hits the IndexError of the failed [1] in Python. -/
def testCondition (ctx : Context) (cond : String) : Except PyError Bool :=
  match pySplitOnce " " cond with
  | some ht =>
    if pyStrip ht.1 = "not" then
      match ctx.resolve (pyStrip ht.2) with
      | .error e => .error e
      | .ok v => .ok (!truthy v)
    else
      match ctx.resolve cond with
      | .error e => .error e
      | .ok v => .ok (truthy v)
  | none =>
    if pyStrip cond = "not" then .error (.indexError "list index out of range")
    else
      match ctx.resolve cond with
      | .error e => .error e
      | .ok v => .ok (truthy v)

/-- Nodelist.render (stencil.py lines 188-190), parameterised by the
one-node renderer: render each node in order and write its returned string
to the output sink. -/
def renderSeq (renderOne : Node → Context → Except PyError (Context × String)) :
    List Node → Context → Except PyError Context
  | [], ctx => .ok ctx
  | n :: ns, ctx =>
    match renderOne n ctx with
    | .error e => .error e
    | .ok cs => renderSeq renderOne ns { cs.1 with output := cs.1.output ++ cs.2 }

/-- The loop of ForTag.render (stencil.py lines 215-218): for each element,
bind loopcounter and the loop variable in the innermost frame, then render
the body nodelist. -/
def renderItems (renderOne : Node → Context → Except PyError (Context × String))
    (argname : String) (body : List Node) :
    List Value → Nat → Context → Except PyError Context
  | [], _, ctx => .ok ctx
  | x :: xs, idx, ctx =>
    match renderSeq renderOne body
        ((ctx.setItem "loopcounter" (.vint idx)).setItem argname x) with
    | .error e => .error e
    | .ok c => renderItems renderOne argname body xs (idx + 1) c

/-- Render one node (stencil.py lines 148-161, 212-220, 239-251, 281-283):
returns the updated context and the string the render method returns.  The
fuel bounds the nesting depth of the node tree (children render with one
less); LoadTag.render calls the nonexistent importlib.load_module, which
raises AttributeError. -/
def renderNodeF : Nat → Node → Context → Except PyError (Context × String)
  | 0, _, _ => .error .recursionError
  | fuel + 1, n, ctx =>
    match n with
    | .text c => .ok (ctx, c)
    | .var e =>
      match ctx.resolve e with
      | .error er => .error er
      | .ok v => .ok (ctx, pyStr v)
    | .forTag argname iterable body =>
      match ctx.resolve iterable with
      | .error er => .error er
      | .ok itv =>
        match toIterable itv with
        | none => .error (.typeError "object is not iterable")
        | some xs =>
          match renderItems (fun nd c => renderNodeF fuel nd c) argname body xs 0
              ctx.push with
          | .error er => .error er
          | .ok c2 => .ok (c2.pop, "")
    | .ifTag cond body =>
      match testCondition ctx cond with
      | .error er => .error er
      | .ok b =>
        if b then
          match renderSeq (fun nd c => renderNodeF fuel nd c) body ctx with
          | .error er => .error er
          | .ok c2 => .ok (c2, "")
        else .ok (ctx, "")
    | .endTag _ => .ok (ctx, "")
    | .loadTag _ => .error (.attributeError "module importlib has no attribute load_module")

/-- Template.render on a plain dict (stencil.py lines 133-139): build a
Context with one frame, no filters and a fresh output sink, then render the
compiled nodes in order, writing each returned string to the sink. -/
def renderTemplate (src : String) (data : List (String × Value)) :
    Except PyError String :=
  match compileTemplate src with
  | .error e => .error e
  | .ok nodes =>
    match renderSeq (fun nd c => renderNodeF ((tokenise src).length + 2) nd c) nodes
        ⟨[data], [], ""⟩ with
    | .error e => .error e
    | .ok c => .ok c.output

theorem setItem_stack_tail (ctx : Context) (k : String) (v : Value) :
    (ctx.setItem k v).stack.tail = ctx.stack.tail := by
  cases h : ctx.stack <;> simp [Context.setItem, h]

theorem setItem_filters (ctx : Context) (k : String) (v : Value) :
    (ctx.setItem k v).filters = ctx.filters := by
  cases h : ctx.stack <;> simp [Context.setItem, h]

theorem renderSeq_preserves
    (RO : Node → Context → Except PyError (Context × String))
    (hRO : ∀ nd c r, RO nd c = .ok r → r.1.stack = c.stack ∧ r.1.filters = c.filters) :
    ∀ (ns : List Node) (c c' : Context), renderSeq RO ns c = .ok c' →
      c'.stack = c.stack ∧ c'.filters = c.filters := by
  intro ns
  induction ns with
  | nil =>
    intro c c' h
    rw [renderSeq] at h
    injection h with h2
    subst h2
    exact ⟨rfl, rfl⟩
  | cons n ns ih =>
    intro c c' h
    rw [renderSeq] at h
    cases hr : RO n c with
    | error e => rw [hr] at h; exact absurd h (by simp)
    | ok cs =>
      rw [hr] at h
      have h1 := hRO n c cs hr
      have h2 := ih _ c' h
      exact ⟨h2.1.trans h1.1, h2.2.trans h1.2⟩

theorem renderItems_preserves
    (RO : Node → Context → Except PyError (Context × String))
    (hRO : ∀ nd c r, RO nd c = .ok r → r.1.stack = c.stack ∧ r.1.filters = c.filters)
    (argname : String) (body : List Node) :
    ∀ (xs : List Value) (idx : Nat) (c c' : Context),
      renderItems RO argname body xs idx c = .ok c' →
      c'.stack.tail = c.stack.tail ∧ c'.filters = c.filters := by
  intro xs
  induction xs with
  | nil =>
    intro idx c c' h
    rw [renderItems] at h
    injection h with h2
    subst h2
    exact ⟨rfl, rfl⟩
  | cons x xs ih =>
    intro idx c c' h
    rw [renderItems] at h
    cases hs : renderSeq RO body
        ((c.setItem "loopcounter" (.vint idx)).setItem argname x) with
    | error e => rw [hs] at h; exact absurd h (by simp)
    | ok c1 =>
      rw [hs] at h
      have h1 := renderSeq_preserves RO hRO body _ c1 hs
      have h2 := ih (idx + 1) c1 c' h
      constructor
      · rw [h2.1, h1.1, setItem_stack_tail, setItem_stack_tail]
      · rw [h2.2, h1.2, setItem_filters, setItem_filters]

theorem renderNodeF_preserves :
    ∀ (fuel : Nat) (n : Node) (c : Context) (r : Context × String),
      renderNodeF fuel n c = .ok r → r.1.stack = c.stack ∧ r.1.filters = c.filters := by
  intro fuel
  induction fuel with
  | zero => intro n c r h; simp [renderNodeF] at h
  | succ fuel ih =>
    intro n c r h
    cases n with
    | text s =>
      simp [renderNodeF] at h
      rw [← h]
      exact ⟨rfl, rfl⟩
    | var e =>
      cases hr : c.resolve e with
      | error er => simp [renderNodeF, hr] at h
      | ok v =>
        simp [renderNodeF, hr] at h
        rw [← h]
        exact ⟨rfl, rfl⟩
    | forTag argname iterable body =>
      cases hr : c.resolve iterable with
      | error er => simp [renderNodeF, hr] at h
      | ok itv =>
        cases hit : toIterable itv with
        | none => simp [renderNodeF, hr, hit] at h
        | some xs =>
          cases hri : renderItems (fun nd cc => renderNodeF fuel nd cc)
              argname body xs 0 c.push with
          | error er => simp [renderNodeF, hr, hit, hri] at h
          | ok c2 =>
            simp [renderNodeF, hr, hit, hri] at h
            have hp := renderItems_preserves _ ih argname body xs 0 c.push c2 hri
            rw [← h]
            exact ⟨hp.1, hp.2⟩
    | ifTag cond body =>
      cases ht : testCondition c cond with
      | error er => simp [renderNodeF, ht] at h
      | ok b =>
        cases b with
        | false =>
          simp [renderNodeF, ht] at h
          rw [← h]
          exact ⟨rfl, rfl⟩
        | true =>
          cases hs : renderSeq (fun nd cc => renderNodeF fuel nd cc) body c with
          | error er => simp [renderNodeF, ht, hs] at h
          | ok c2 =>
            simp [renderNodeF, ht, hs] at h
            have hp := renderSeq_preserves _ ih body c c2 hs
            rw [← h]
            exact hp
    | endTag nm =>
      simp [renderNodeF] at h
      rw [← h]
      exact ⟨rfl, rfl⟩
    | loadTag s => simp [renderNodeF] at h

/-- Claim C6: a for loop binds its loop variable and loop counter in a
freshly pushed scope frame that is popped when the loop ends, also for an
empty iterable; consequently a successful for render leaves the scope
stack exactly as it was, so immediately after endfor every expression
(in particular the loop variable, and any same-named variable of an
enclosing frame) resolves exactly as it did before the loop: to the
configured default if it was never defined outside, and to its pre-loop
value otherwise. -/
theorem forTag_render_scope (fuel : Nat) (argname iterable : String)
    (body : List Node) (ctx ctx' : Context) (out : String)
    (h : renderNodeF fuel (.forTag argname iterable body) ctx = .ok (ctx', out)) :
    ctx'.stack = ctx.stack ∧ ∀ e, ctx'.resolve e = ctx.resolve e := by
  have hp := renderNodeF_preserves fuel _ ctx (ctx', out) h
  obtain ⟨s1, f1, o1⟩ := ctx
  obtain ⟨s2, f2, o2⟩ := ctx'
  have h1 : s2 = s1 := hp.1
  have h2 : f2 = f1 := hp.2
  subst h1
  subst h2
  exact ⟨rfl, fun e => rfl⟩

/-- Witness for forTag_render_scope: rendering a one-iteration loop over
xs whose variable x shadows an outer binding of x leaves the stack intact
and x resolving to its pre-loop value old. -/
theorem forTag_render_scope_witness :
    (⟨[[("xs", .vlist [.vint 1]), ("x", .vstr "old")]], [], "hi"⟩ : Context).stack =
        (⟨[[("xs", .vlist [.vint 1]), ("x", .vstr "old")]], [], ""⟩ : Context).stack ∧
      Context.resolve ⟨[[("xs", .vlist [.vint 1]), ("x", .vstr "old")]], [], "hi"⟩ "x" =
        Context.resolve ⟨[[("xs", .vlist [.vint 1]), ("x", .vstr "old")]], [], ""⟩ "x" := by
  have h := forTag_render_scope 3 "x" "xs" [Node.text "hi"]
    ⟨[[("xs", .vlist [.vint 1]), ("x", .vstr "old")]], [], ""⟩
    ⟨[[("xs", .vlist [.vint 1]), ("x", .vstr "old")]], [], "hi"⟩ "" rfl
  exact ⟨h.1, h.2 "x"⟩

/-- End-to-end check from spec section 8: a variable and a true condition. -/
theorem render_end_to_end_if_true :
    renderTemplate "Hi \x7b\x7b name \x7d\x7d\x7b% if show %\x7d!\x7b% endif %\x7d"
      [("name", .vstr "Amy"), ("show", .vbool true)] = .ok "Hi Amy!" := rfl

/-- End-to-end check from spec section 8: the same template with a false
condition renders without the conditional body. -/
theorem render_end_to_end_if_false :
    renderTemplate "Hi \x7b\x7b name \x7d\x7d\x7b% if show %\x7d!\x7b% endif %\x7d"
      [("name", .vstr "Amy"), ("show", .vbool false)] = .ok "Hi Amy" := rfl

/-- End-to-end check from spec section 8: the loop counter and loop
variable of a for loop over two numbers. -/
theorem render_end_to_end_for :
    renderTemplate
      "\x7b% for n in nums %\x7d\x7b\x7b loopcounter \x7d\x7d:\x7b\x7b n \x7d\x7d;\x7b% endfor %\x7d"
      [("nums", .vlist [.vint 10, .vint 20])] = .ok "0:10;1:20;" := rfl
